import Mathlib

/-!
Verification of the nputop telemetry core (nputop/api/device.py and
nputop/api/libascend.py) against its natural-language specification.

The Python code is shallowly embedded: device accessors become explicit
state-passing functions on a device state, the acl / npu-smi backend
becomes an abstract record of per-operation results, and Python
exceptions become the error branch of Except.  The helper module
nputop/api/utils.py (NA, NaType, Snapshot, memoize_when_activated,
bytes2human) is not present in the repository sources, so those pieces
are modelled from the specification and are marked as such in their
doc comments.
-/

/-- Model of a Python exception kind raised by the backend layer.
The facade nvmlQuery discards the payload, so a small enumeration
suffices. -/
inductive PyExc where
  | generic
  | acl
  | calledProcessError
  | fileNotFound
  | attributeError
  | typeError
  deriving DecidableEq, Repr

/-- Model of a Python runtime value as it flows through the nputop
device accessors: ints, floats (modelled as rationals), strings, the
NotApplicable sentinel NA, the MemoryInfo namedtuple (total, free,
used), the UtilizationRates namedtuple of device.py (npu, memory,
encoder, decoder) and the 4-field namedtuple returned by
libascend.ascendDeviceGetUtilizationRates (ai_core, mem, bandwidth,
aicpu), modelled as a 4-tuple. -/
inductive Value where
  | na
  | int (n : Int)
  | rat (q : Rat)
  | str (s : String)
  | memInfo (total free used : Value)
  | utilRates (npu memory encoder decoder : Value)
  | tup (a b c d : Value)
  deriving DecidableEq, Repr

/-- Abstract Ascend backend: the outcome of each acl / npu-smi backed
operation used by device.py.  aclMem is the (free, total) pair from
acl.rt.get_mem_info (the third component, ret, is discarded by the
source); the other fields are results of the corresponding
libascend.ascendDeviceGetXXX call, whose scraping internals are
external collaborators.  An error value models the call raising. -/
structure Backend where
  aclMem : Except PyExc (Int × Int)
  utilQ : Except PyExc Value
  tempQ : Except PyExc Value
  powerQ : Except PyExc Value
  plimitQ : Except PyExc Value
  nameQ : Except PyExc Value
  countQ : Except PyExc Nat
  deriving Repr

/-- Number of backend queries issued so far, by operation.  Used to
state the memoization and batching claims. -/
structure Counts where
  cName : Nat
  cMem : Nat
  cUtil : Nat
  cTemp : Nat
  cPower : Nat
  cPlimit : Nat
  deriving DecidableEq, Repr

/-- The oneshot cache of a Device: one optional memoized value per
decorated accessor (memory_info and utilization_rates). -/
structure MemCache where
  mem : Option Value
  util : Option Value
  deriving DecidableEq, Repr

/-- Mutable state of one Device object: its backend handle, its index,
the lazily filled _name and _memory_total_human caches, the optional
oneshot cache (present exactly while the oneshot scope is open, like
the _cache attribute in the source), and the backend query counters. -/
structure DState where
  b : Backend
  idx : Nat
  nameCache : Option Value
  mthCache : Value
  cache : Option MemCache
  counts : Counts
  deriving Repr

/-- Fresh Device state as produced by Device.__init__. -/
def initState (b : Backend) (i : Nat) : DState :=
  ⟨b, i, none, Value.na, none, ⟨0, 0, 0, 0, 0, 0⟩⟩

set_option linter.unusedVariables false in
/-- Embedding of libascend.nvmlQuery: run the operation; on success
return its value, on any exception return the default.  The source
accepts an ignore_errors flag but its body never consults it (the
except clause returns default unconditionally), which the embedding
reproduces faithfully. -/
def nvmlQueryG {α : Type} (r : Except PyExc α) (default : α)
    ( ignore_errors : Bool) : α :=
  match r with
  | .ok v => v
  | .error _ => default

/-- Embedding of libascend.ascendDeviceGetMemoryInfo: unpack
(free, total) from acl.rt.get_mem_info, compute used = total - free and
return the MemoryInfo namedtuple (total, free, used). -/
def ascendDeviceGetMemoryInfo (r : Except PyExc (Int × Int)) :
    Except PyExc Value :=
  match r with
  | .ok p => .ok (.memInfo (.int p.2) (.int p.1) (.int (p.2 - p.1)))
  | .error e => .error e

/-- Model of the subprocess.run invocation built by libascend._run_smi:
the argument list from cmd.split(), whether check=True was passed, and
the wall-clock timeout passed, if any. -/
structure SubprocessCall where
  args : List String
  timeout : Option Nat
  check : Bool
  deriving DecidableEq, Repr

/-- Possible outcomes of the npu-smi subprocess: it completed with an
exit code and stdout text, or the tool was missing
(FileNotFoundError).  Without a timeout argument subprocess.run never
raises TimeoutExpired, so no timeout outcome exists. -/
inductive SubprocessOutcome where
  | completed (exitCode : Nat) (stdout : String)
  | toolMissing
  deriving DecidableEq, Repr

/-- Split a character list at every separator chosen by p; always
returns at least one (possibly empty) field, like Python str.split
with an explicit separator.  Structural, so it reduces in the
kernel (the built-in String.splitOn does not). -/
def splitOnPred (p : Char → Bool) : List Char → List (List Char)
  | [] => [[]]
  | c :: rest =>
      match splitOnPred p rest with
      | [] => [[]]
      | h :: t => if p c then [] :: h :: t else (c :: h) :: t

/-- Python str.split(sep) for a one-character separator. -/
def pySplitOn (s : String) (sep : Char) : List String :=
  (splitOnPred (fun c => c == sep) s.data).map String.mk

/-- Python str.split() with no argument: split on whitespace runs and
drop empty fields. -/
def pySplit (s : String) : List String :=
  ((splitOnPred Char.isWhitespace s.data).map String.mk).filter
    (fun t => t ≠ "")

/-- The subprocess.run call constructed by libascend._run_smi:
cmd.split() as argument list, stdout captured, check=True, and no
timeout argument. -/
def runSmiCall (cmd : String) : SubprocessCall :=
  ⟨pySplit cmd, none, true⟩

/-- Behaviour of subprocess.run for the call shape used by _run_smi:
nonzero exit with check=True raises CalledProcessError, a missing tool
raises FileNotFoundError, otherwise stdout is returned. -/
def pyRun (call : SubprocessCall) (outcome : SubprocessOutcome) :
    Except PyExc String :=
  match outcome with
  | .completed code out =>
      if call.check && code ≠ 0 then .error .calledProcessError
      else .ok out
  | .toolMissing => .error .fileNotFound

/-- Embedding of libascend._run_smi: run npu-smi via subprocess.run and
return its stdout; on any exception return the empty string. -/
def runSmi (cmd : String) (outcome : SubprocessOutcome) : String :=
  match pyRun (runSmiCall cmd) outcome with
  | .ok out => out
  | .error _ => ""

/-- Modelled from the spec: truthiness of a value under Python bool().
NotApplicable is falsy (the NaType class lives in the absent module
nputop/api/utils.py; the spec calls it a sentinel distinct from
null/zero). -/
def pyTruthy (v : Value) : Bool :=
  match v with
  | .na => false
  | .int n => n ≠ 0
  | .rat q => q ≠ 0
  | .str s => s ≠ ""
  | _ => true

/-- Python expression x or NA, as used in Device.name. -/
def pyOrNA (v : Value) : Value :=
  if pyTruthy v then v else .na

/-- Modelled from the spec: str() rendering of a value inside an
f-string.  CPython float formatting is not modelled; rationals render
through Rat.  Only the structure of the produced strings matters to
the claims. -/
def valueStr (v : Value) : String :=
  match v with
  | .na => "N/A"
  | .int n => toString n
  | .rat q => toString q
  | .str s => s
  | _ => "object"

/-- Modelled from the spec: bytes2human from the absent module
nputop/api/utils.py, a byte-quantity formatting function that must
special-case NotApplicable (it never attempts numeric formatting on
NA).  The numeric format is abbreviated to MiB. -/
def bytes2human (v : Value) : Value :=
  match v with
  | .int n => .str (toString (n / 1048576) ++ "MiB")
  | _ => .na

/-- Attribute access .total on the result of Device.memory_info.  On
the MemoryInfo namedtuple this is the first field; on any other value
-- in particular the plain string N/A, the constant from libascend.py
that nvmlQuery returns as default on a failed query -- the attribute
lookup raises AttributeError, exactly as in CPython. -/
def attrTotal (v : Value) : Except PyExc Value :=
  match v with
  | .memInfo t _ _ => .ok t
  | _ => .error .attributeError

/-- Attribute access .free on the result of Device.memory_info;
raises AttributeError on a non-namedtuple value as in attrTotal. -/
def attrFree (v : Value) : Except PyExc Value :=
  match v with
  | .memInfo _ f _ => .ok f
  | _ => .error .attributeError

/-- Attribute access .used on the result of Device.memory_info;
raises AttributeError on a non-namedtuple value as in attrTotal. -/
def attrUsed (v : Value) : Except PyExc Value :=
  match v with
  | .memInfo _ _ u => .ok u
  | _ => .error .attributeError

/-- Round half to even, the rounding used by Python round().  CPython
rounds on binary floats; the model uses exact rational arithmetic. -/
def roundHalfEven (x : Rat) : Int :=
  let fl := ⌊x⌋
  let fr := x - fl
  if fr < 1/2 then fl
  else if 1/2 < fr then fl + 1
  else if fl % 2 = 0 then fl else fl + 1

/-- Python round(x, 1). -/
def pyRound1 (q : Rat) : Rat :=
  (roundHalfEven (q * 10) : Rat) / 10

/-- Value of Device.memory_percent given the memory_info result:
its first operation is the attribute access info.total, which raises
AttributeError on the plain-str N/A failure value; on a namedtuple,
round(100.0 * used / total, 1) when total is a nonzero int, else NA;
a non-numeric used under a nonzero int total would raise TypeError in
the arithmetic (unreachable: the backend builds all-int records). -/
def percentOf (v : Value) : Except PyExc Value :=
  match v with
  | .memInfo (.int t) _ u =>
      match u with
      | .int m =>
          .ok (if t = 0 then .na
               else .rat (pyRound1 ((100 * m : Int) / (t : Rat))))
      | _ => if t = 0 then .ok .na else .error .typeError
  | .memInfo _ _ _ => .ok .na
  | _ => .error .attributeError

/-- Two-digit zero-padded index, for the f-string ASCEND-{index:02d}. -/
def pad2 (i : Nat) : String :=
  if i < 10 then "0" ++ toString i else toString i

/-- Format of the power part of Device.power_status: pu/1000 when the
power usage is numeric, else the value itself. -/
def powerValStr (v : Value) : String :=
  match v with
  | .int n => valueStr (.rat ((n : Rat) / 1000))
  | .rat q => valueStr (.rat (q / 1000))
  | _ => valueStr v

/-- Format of the limit part of Device.power_status: float(li) when
the power limit is an int, else the literal N/A. -/
def limitValStr (v : Value) : String :=
  match v with
  | .int n => valueStr (.rat (n : Rat))
  | _ => "N/A"

namespace Device

/-- Bump the memory-info query counter. -/
def bumpMem (s : DState) : DState :=
  { s with counts := { s.counts with cMem := s.counts.cMem + 1 } }

/-- Bump the utilization query counter. -/
def bumpUtil (s : DState) : DState :=
  { s with counts := { s.counts with cUtil := s.counts.cUtil + 1 } }

/-- Undecorated body of Device.memory_info:
nvmlQuery(ascendDeviceGetMemoryInfo, index); one backend query. -/
def memory_info_raw (s : DState) : Value × DState :=
  (nvmlQueryG (ascendDeviceGetMemoryInfo s.b.aclMem) Value.na true,
   bumpMem s)

/-- Device.memory_info with its memoize_when_activated decorator.
Modelled from the spec for the decorator itself (it lives in the
absent nputop/api/utils.py): while the oneshot cache is present the
first call computes and stores the value and later calls return the
stored value; without the cache every call recomputes. -/
def memory_info (s : DState) : Value × DState :=
  match s.cache with
  | none => memory_info_raw s
  | some c =>
      match c.mem with
      | some v => (v, s)
      | none =>
          let r := memory_info_raw s
          (r.1, { r.2 with cache := some ⟨some r.1, c.util⟩ })

/-- Device.memory_total: memory_info().total; propagates the
AttributeError raised when memory_info returned the plain-str N/A. -/
def memory_total (s : DState) : Except PyExc (Value × DState) :=
  let r := memory_info s
  match attrTotal r.1 with
  | .ok v => .ok (v, r.2)
  | .error e => .error e

/-- Device.memory_used: memory_info().used; propagates the
AttributeError raised on the plain-str N/A failure value. -/
def memory_used (s : DState) : Except PyExc (Value × DState) :=
  let r := memory_info s
  match attrUsed r.1 with
  | .ok v => .ok (v, r.2)
  | .error e => .error e

/-- Device.memory_free: memory_info().free; propagates the
AttributeError raised on the plain-str N/A failure value. -/
def memory_free (s : DState) : Except PyExc (Value × DState) :=
  let r := memory_info s
  match attrFree r.1 with
  | .ok v => .ok (v, r.2)
  | .error e => .error e

/-- Device.memory_total_human: cached in _memory_total_human; while
the stored value equals NA it is recomputed as
bytes2human(memory_total()), whose exception propagates. -/
def memory_total_human (s : DState) : Except PyExc (Value × DState) :=
  if s.mthCache = Value.na then
    match memory_total s with
    | .error e => .error e
    | .ok r =>
        let h := bytes2human r.1
        .ok (h, { r.2 with mthCache := h })
  else .ok (s.mthCache, s)

/-- Device.memory_used_human: bytes2human(memory_used()); the
exception from memory_used propagates. -/
def memory_used_human (s : DState) : Except PyExc (Value × DState) :=
  match memory_used s with
  | .error e => .error e
  | .ok r => .ok (bytes2human r.1, r.2)

/-- Device.memory_free_human: bytes2human(memory_free()); the
exception from memory_free propagates. -/
def memory_free_human (s : DState) : Except PyExc (Value × DState) :=
  match memory_free s with
  | .error e => .error e
  | .ok r => .ok (bytes2human r.1, r.2)

/-- Device.memory_percent: percentage from memory_info(); the
AttributeError from the info.total access propagates. -/
def memory_percent (s : DState) : Except PyExc (Value × DState) :=
  let r := memory_info s
  match percentOf r.1 with
  | .ok v => .ok (v, r.2)
  | .error e => .error e

/-- Device.memory_usage: the f-string used_human / total_human; the
exceptions of both parts propagate. -/
def memory_usage (s : DState) : Except PyExc (Value × DState) :=
  match memory_used_human s with
  | .error e => .error e
  | .ok r1 =>
      match memory_total_human r1.2 with
      | .error e => .error e
      | .ok r2 => .ok (.str (valueStr r1.1 ++ " / " ++ valueStr r2.1), r2.2)

/-- Undecorated body of Device.utilization_rates: query the backend
tuple; if it is a tuple of length at least two build
UtilizationRates(npu, memory, NA, NA) from its first two fields, else
the all-NA rates. -/
def utilization_rates_raw (s : DState) : Value × DState :=
  (match nvmlQueryG s.b.utilQ Value.na true with
   | .tup a b _ _ => .utilRates a b .na .na
   | _ => .utilRates .na .na .na .na,
   bumpUtil s)

/-- Device.utilization_rates with its memoize_when_activated
decorator, modelled from the spec as in memory_info. -/
def utilization_rates (s : DState) : Value × DState :=
  match s.cache with
  | none => utilization_rates_raw s
  | some c =>
      match c.util with
      | some v => (v, s)
      | none =>
          let r := utilization_rates_raw s
          (r.1, { r.2 with cache := some ⟨c.mem, some r.1⟩ })

/-- Field .npu of a UtilizationRates value. -/
def attrNpu (v : Value) : Value :=
  match v with
  | .utilRates a _ _ _ => a
  | _ => .na

/-- Field .memory of a UtilizationRates value. -/
def attrMemRate (v : Value) : Value :=
  match v with
  | .utilRates _ m _ _ => m
  | _ => .na

/-- Device.npu_utilization: utilization_rates().npu. -/
def npu_utilization (s : DState) : Value × DState :=
  let r := utilization_rates s
  (attrNpu r.1, r.2)

/-- Device.memory_utilization: utilization_rates().memory. -/
def memory_utilization (s : DState) : Value × DState :=
  let r := utilization_rates s
  (attrMemRate r.1, r.2)

/-- Device.encoder_utilization: returns NA directly. -/
def encoder_utilization (s : DState) : Value × DState :=
  (.na, s)

/-- Device.decoder_utilization: returns NA directly. -/
def decoder_utilization (s : DState) : Value × DState :=
  (.na, s)

/-- Device.temperature: nvmlQuery(ascendDeviceGetTemperature, index);
one backend query per call, not memoized. -/
def temperature (s : DState) : Value × DState :=
  (nvmlQueryG s.b.tempQ Value.na true,
   { s with counts := { s.counts with cTemp := s.counts.cTemp + 1 } })

/-- Device.power_usage: nvmlQuery(ascendDeviceGetPowerUsage, index);
one backend query per call, not memoized. -/
def power_usage (s : DState) : Value × DState :=
  (nvmlQueryG s.b.powerQ Value.na true,
   { s with counts := { s.counts with cPower := s.counts.cPower + 1 } })

/-- Device.power_limit: nvmlQuery(ascendDeviceGetPowerLimit, index);
one backend query per call, not memoized. -/
def power_limit (s : DState) : Value × DState :=
  (nvmlQueryG s.b.plimitQ Value.na true,
   { s with counts := { s.counts with cPlimit := s.counts.cPlimit + 1 } })

/-- Device.power_status: calls power_usage() and power_limit() again
and formats them as an f-string, so it issues two further backend
queries of its own. -/
def power_status (s : DState) : Value × DState :=
  let r1 := power_usage s
  let r2 := power_limit r1.2
  (.str (powerValStr r1.1 ++ "W / " ++ limitValStr r2.1 ++ "W"), r2.2)

/-- Device.name: query ascendDeviceGetName once and cache it in _name;
return the cached value or NA when it is falsy. -/
def name (s : DState) : Value × DState :=
  match s.nameCache with
  | some v => (pyOrNA v, s)
  | none =>
      let v := nvmlQueryG s.b.nameQ Value.na true
      (pyOrNA v,
       { s with nameCache := some v,
                counts := { s.counts with cName := s.counts.cName + 1 } })

/-- Device.uuid: the synthesized placeholder ASCEND-{index:02d}; no
backend query (the source caches it in _uuid, which is value-level
unobservable since the value is deterministic in the index). -/
def uuid (s : DState) : Value × DState :=
  (.str ("ASCEND-" ++ pad2 s.idx), s)

/-- Device.bus_id: returns NA directly. -/
def bus_id (s : DState) : Value × DState :=
  (.na, s)

/-- Device.fan_speed: returns NA directly. -/
def fan_speed (s : DState) : Value × DState :=
  (.na, s)

/-- Device.display_active: constant Disabled. -/
def display_active (s : DState) : Value × DState :=
  (.str "Disabled", s)

/-- Device.display_mode: constant string N/A (a plain str literal in
the source, not the NaType sentinel). -/
def display_mode (s : DState) : Value × DState :=
  (.str "N/A", s)

/-- Device.current_driver_model: constant string N/A. -/
def current_driver_model (s : DState) : Value × DState :=
  (.str "N/A", s)

/-- Device.persistence_mode: constant Disabled. -/
def persistence_mode (s : DState) : Value × DState :=
  (.str "Disabled", s)

/-- Device.performance_state: constant string N/A. -/
def performance_state (s : DState) : Value × DState :=
  (.str "N/A", s)

/-- Device.compute_mode: constant Default. -/
def compute_mode (s : DState) : Value × DState :=
  (.str "Default", s)

end Device

namespace Device

/-- Device.SNAPSHOT_KEYS, in the exact order listed in the source. -/
def SNAPSHOT_KEYS : List String :=
  ["name", "uuid", "bus_id",
   "memory_info",
   "memory_used", "memory_free", "memory_total",
   "memory_used_human", "memory_free_human", "memory_total_human",
   "memory_percent", "memory_usage",
   "utilization_rates",
   "npu_utilization", "memory_utilization",
   "encoder_utilization", "decoder_utilization",
   "clock_infos", "max_clock_infos", "clock_speed_infos",
   "sm_clock", "memory_clock", "video_clock",
   "fan_speed", "temperature",
   "power_usage", "power_limit", "power_status",
   "pcie_throughput", "pcie_tx_throughput", "pcie_rx_throughput",
   "pcie_tx_throughput_human", "pcie_rx_throughput_human",
   "display_active", "display_mode", "current_driver_model",
   "persistence_mode", "performance_state",
   "total_volatile_uncorrected_ecc_errors",
   "compute_mode", "cuda_compute_capability"]

/-- The stub produced by _na_method in device.py: a method that
ignores its arguments and returns NA. -/
def naMethodA (s : DState) : Value × DState :=
  (.na, s)

/-- Lift a non-raising accessor into the common accessor type used by
the attribute table: methods that cannot raise always return ok. -/
def liftA (f : DState → Value × DState) :
    DState → Except PyExc (Value × DState) :=
  fun s => .ok (f s)

/-- Attribute table of the Device class before the module-level
stubbing loop runs: exactly the accessor methods defined in the class
body (restricted to names that can be looked up by as_snapshot); the
memory-derived accessors can raise, the rest cannot. -/
def baseAttr (k : String) :
    Option (DState → Except PyExc (Value × DState)) :=
  if k = "name" then some (liftA name)
  else if k = "uuid" then some (liftA uuid)
  else if k = "bus_id" then some (liftA bus_id)
  else if k = "memory_info" then some (liftA memory_info)
  else if k = "memory_used" then some memory_used
  else if k = "memory_free" then some memory_free
  else if k = "memory_total" then some memory_total
  else if k = "memory_used_human" then some memory_used_human
  else if k = "memory_free_human" then some memory_free_human
  else if k = "memory_total_human" then some memory_total_human
  else if k = "memory_percent" then some memory_percent
  else if k = "memory_usage" then some memory_usage
  else if k = "utilization_rates" then some (liftA utilization_rates)
  else if k = "npu_utilization" then some (liftA npu_utilization)
  else if k = "memory_utilization" then some (liftA memory_utilization)
  else if k = "encoder_utilization" then some (liftA encoder_utilization)
  else if k = "decoder_utilization" then some (liftA decoder_utilization)
  else if k = "fan_speed" then some (liftA fan_speed)
  else if k = "temperature" then some (liftA temperature)
  else if k = "power_usage" then some (liftA power_usage)
  else if k = "power_limit" then some (liftA power_limit)
  else if k = "power_status" then some (liftA power_status)
  else if k = "display_active" then some (liftA display_active)
  else if k = "display_mode" then some (liftA display_mode)
  else if k = "current_driver_model" then some (liftA current_driver_model)
  else if k = "persistence_mode" then some (liftA persistence_mode)
  else if k = "performance_state" then some (liftA performance_state)
  else if k = "compute_mode" then some (liftA compute_mode)
  else none

/-- Attribute table after the module-level loop
for name in SNAPSHOT_KEYS: if not hasattr(Device, name) then
setattr(Device, name, na_method(name)). -/
def deviceAttr (k : String) :
    Option (DState → Except PyExc (Value × DState)) :=
  match baseAttr k with
  | some f => some f
  | none => if k ∈ SNAPSHOT_KEYS then some (liftA naMethodA) else none

/-- The dict comprehension of as_snapshot: read each named accessor in
order, threading the device state; a missing attribute surfaces as the
AttributeError of getattr, and an exception raised inside an accessor
(such as the .used lookup on the plain-str N/A) propagates. -/
def readKeys :
    List String → DState → Except PyExc (List (String × Value) × DState)
  | [], s => .ok ([], s)
  | k :: ks, s =>
      match deviceAttr k with
      | none => .error .attributeError
      | some f =>
          match f s with
          | .error e => .error e
          | .ok r =>
              match readKeys ks r.2 with
              | .error e => .error e
              | .ok p => .ok ((k, r.1) :: p.1, p.2)

/-- Device.oneshot as a scope combinator: if the _cache attribute is
already present the body runs unchanged (re-entry is a no-op);
otherwise the cache is activated for memory_info and
utilization_rates, the body runs, and the finally clause deactivates
the cache (also when the body raises, in which case the state is
discarded with the propagating exception). -/
def withOneshot {α : Type}
    (body : DState → Except PyExc (α × DState)) (s : DState) :
    Except PyExc (α × DState) :=
  match s.cache with
  | some _ => body s
  | none =>
      match body { s with cache := some ⟨none, none⟩ } with
      | .error e => .error e
      | .ok p => .ok (p.1, { p.2 with cache := none })

/-- Device.as_snapshot: inside the oneshot scope, read every accessor
named in SNAPSHOT_KEYS in the listed order into the snapshot field
list (Snapshot itself lives in the absent nputop/api/utils.py; the
spec describes it as an immutable named-field record, modelled as the
association list of read fields); an exception raised by an accessor
propagates to the caller. -/
def as_snapshot (s : DState) :
    Except PyExc (List (String × Value) × DState) :=
  withOneshot (readKeys SNAPSHOT_KEYS) s

/-- Device.count: nvmlQuery(ascendDeviceGetCount, default=0). -/
def count (b : Backend) : Nat :=
  nvmlQueryG b.countQ 0 true

/-- Device.from_indices: with indices=None enumerate range(count());
an explicit list is used as given (a single int becomes a singleton
list; Device construction in nputop never raises, so the try/except
around it appends every index). -/
def from_indices (b : Backend) (indices : Option (List Nat)) : List Nat :=
  match indices with
  | none => List.range (count b)
  | some l => l

end Device

/-- Python str.isdigit(): nonempty and all digits.  Note +5 is not a
digit string. -/
def pyIsDigit (s : String) : Bool :=
  s.length != 0 && s.data.all Char.isDigit

/-- Python int() on a digit-only string. -/
def pyIntNat (s : String) : Nat :=
  s.data.foldl (fun acc c => acc * 10 + (c.toNat - 48)) 0

/-- Python str.strip(): drop whitespace from both ends. -/
def pyStrip (s : String) : String :=
  String.mk
    (((s.data.dropWhile Char.isWhitespace).reverse.dropWhile
        Char.isWhitespace).reverse)

/-- Embedding of _env_visible_devices in device.py:
os.getenv(ASCEND_RT_VISIBLE_DEVICES) or os.getenv(CUDA_VISIBLE_DEVICES)
or None, with the two environment values passed in explicitly and the
Python or-chain skipping unset and empty values. -/
def env_visible_devices (a b : Option String) : Option String :=
  match a with
  | some s =>
      if s ≠ "" then some s
      else match b with
           | some t => if t ≠ "" then some t else none
           | none => none
  | none =>
      match b with
      | some t => if t ≠ "" then some t else none
      | none => none

/-- Embedding of parse_cuda_visible_devices in device.py: fall back to
the environment when the spec is None; a None or empty spec yields
range(Device.count()); otherwise split on commas, strip whitespace and
keep every token that is a pure digit string, as an int, in order --
non-digit tokens are skipped and duplicates are kept. -/
def parse_cuda_visible_devices (spec : Option String)
    (env1 env2 : Option String) (deviceCount : Nat) : List Nat :=
  let cvd := match spec with
    | none => env_visible_devices env1 env2
    | some v => some v
  match cvd with
  | none => List.range deviceCount
  | some s =>
      if s = "" then List.range deviceCount
      else ((pySplitOn s ',').map pyStrip).filterMap
        (fun tok => if pyIsDigit tok then some (pyIntNat tok) else none)

/-- Embedding of normalize_cuda_visible_devices in device.py. -/
def normalize_cuda_visible_devices (spec : Option String)
    (env1 env2 : Option String) (deviceCount : Nat) : String :=
  String.intercalate ","
    ((parse_cuda_visible_devices spec env1 env2 deviceCount).map toString)

namespace DeviceGpu

/-- Abstract NVML topology used by device_gpu.py: the physical device
count, the UUID string of each physical device in discovery order (the
keys of _get_all_physical_device_attrs, which are also the strings
resolved by nvmlDeviceGetHandleByUUID), and whether discovery itself
succeeded (False models _get_all_physical_device_attrs raising
NVMLError). -/
structure GpuEnv where
  count : Nat
  uuids : List String
  discoveryOk : Bool
  deriving DecidableEq, Repr

/-- Character-level helper for strip_identifier: when the token starts
with a digit, or a sign followed by a digit, truncate to the maximal
leading numeric run; otherwise keep the token unchanged. -/
def stripChars : List Char → List Char
  | [] => []
  | c :: rest =>
      if c.isDigit then c :: rest.takeWhile Char.isDigit
      else if (c == '+' || c == '-') &&
              (match rest with
               | r :: _ => r.isDigit
               | [] => false) then
        c :: rest.takeWhile Char.isDigit
      else c :: rest

/-- Embedding of strip_identifier inside _parse_cuda_visible_devices
of device_gpu.py: strip whitespace, then truncate numeric-looking
tokens to their maximal leading numeric part. -/
def strip_identifier (s : String) : String :=
  String.mk (stripChars (pyStrip s).data)

/-- Lowercase hexadecimal digit. -/
def isHexLower (c : Char) : Bool :=
  c.isDigit || ('a' ≤ c && c ≤ 'f')

/-- The core UUID shape of Device.UUID_PATTERN: five lowercase hex
groups of lengths 8-4-4-4-12 joined by dashes. -/
def uuidCore (l : List Char) : Bool :=
  match splitOnPred (fun c => c == '-') l with
  | [a, b, c, d, e] =>
      a.length == 8 && b.length == 4 && c.length == 4 &&
      d.length == 4 && e.length == 12 &&
      (a ++ b ++ c ++ d ++ e).all isHexLower
  | _ => false

/-- Nonempty run of decimal digits, for the GI and CI ids. -/
def allDigits (l : List Char) : Bool :=
  l.length != 0 && l.all Char.isDigit

/-- Embedding of Device.UUID_PATTERN.match as a Boolean full-match:
the pattern accepts NPU-core, MIG-core, and MIG-NPU-core/gi/ci with
decimal gi and ci; a bare core with no marker is rejected by the
conditional group that demands an NPU- marker. -/
def uuidMatch (s : String) : Bool :=
  let l := s.data
  if ("MIG-NPU-".data).isPrefixOf l then
    match splitOnPred (fun c => c == '/') (l.drop 8) with
    | [core, gi, ci] => uuidCore core && allDigits gi && allDigits ci
    | _ => false
  else if ("MIG-".data).isPrefixOf l then uuidCore (l.drop 4)
  else if ("NPU-".data).isPrefixOf l then uuidCore (l.drop 4)
  else false

/-- One step of from_index_or_uuid in _parse_cuda_visible_devices of
device_gpu.py, combined with Device construction: a digit token is an
ordinal and resolves when the index is in range
(nvmlDeviceGetHandleByIndex raises past the range); a UUID-shaped
token resolves through the backend UUID table; any other token raises
NVMLError_NotFound.  The first resolved token fixes the addressing
scheme; a token of the other scheme raises ValueError.  The returned
flag is the scheme to use from then on; an error makes the caller stop
scanning. -/
def resolveTok (env : GpuEnv) (useInt : Option Bool) (tok : String) :
    Except Unit (Nat × Bool) :=
  if pyIsDigit tok then
    let n := pyIntNat tok
    let u := useInt.getD true
    if u then
      if n < env.count then .ok (n, true) else .error ()
    else .error ()
  else if uuidMatch tok then
    let u := useInt.getD false
    if u then .error ()
    else
      match env.uuids.findIdx? (fun x => x == tok) with
      | some i => .ok (i, false)
      | none => .error ()
  else .error ()

/-- The scanning loop of _parse_cuda_visible_devices of device_gpu.py:
a token already presented returns the empty list outright (duplicate
identifiers found); an unresolvable or wrong-scheme token breaks the
loop, keeping only the devices resolved before it. -/
def parseLoop (env : GpuEnv) (useInt : Option Bool)
    (presented : List String) (acc : List Nat) :
    List String → List Nat
  | [] => acc
  | tok :: rest =>
      if tok ∈ presented then []
      else
        match resolveTok env useInt tok with
        | .error _ => acc
        | .ok p => parseLoop env (some p.2) (tok :: presented)
            (acc ++ [p.1]) rest

/-- Embedding of _parse_cuda_visible_devices of device_gpu.py with
format=index: on discovery failure return []; a None spec defaults to
the comma-joined list of all device UUIDs; split on commas, strip each
identifier, and scan.  The lru_cache wrapper adds no input-output
behaviour and is not modelled. -/
def parse_cuda_visible_devices (env : GpuEnv) (spec : Option String) :
    List Nat :=
  if env.discoveryOk then
    let cvd := match spec with
      | none => String.intercalate "," env.uuids
      | some s => s
    parseLoop env none [] [] ((pySplitOn cvd ',').map strip_identifier)
  else []

end DeviceGpu

/-- A healthy concrete backend used by witnesses: 500 bytes total with
100 free, utilization tuple (30, 40, NA, NA), 45 degrees, 88000 mW,
limit 300 W, name Ascend910B, two devices. -/
def bC : Backend :=
  ⟨.ok (100, 500), .ok (.tup (.int 30) (.int 40) .na .na), .ok (.int 45),
   .ok (.int 88000), .ok (.int 300), .ok (.str "Ascend910B"), .ok 2⟩

/-- A backend on which every operation raises, modelling a machine
with the driver not loaded. -/
def failB : Backend :=
  ⟨.error .acl, .error .acl, .error .acl, .error .acl, .error .acl,
   .error .acl, .error .acl⟩

/-- A healthy backend that reports zero devices. -/
def zeroB : Backend :=
  ⟨.error .acl, .error .acl, .error .acl, .error .acl, .error .acl,
   .error .acl, .ok 0⟩

/-- A device state inside an open oneshot scope with an empty cache,
over the healthy backend. -/
def sW : DState :=
  { initState bC 0 with cache := some ⟨none, none⟩ }

/-- A sample NPU UUID string. -/
def uuidA : String := "NPU-11111111-2222-3333-4444-555555555555"

/-- A second sample NPU UUID string. -/
def uuidB : String := "NPU-66666666-7777-8888-9999-aaaaaaaaaaaa"

/-- A two-device topology whose devices carry uuidA and uuidB. -/
def envAB : DeviceGpu.GpuEnv := ⟨2, [uuidA, uuidB], true⟩

/-- C3: the nvmlQuery facade returns the caller-supplied default on
any backend exception; however, it does so even when the caller passes
ignore_errors=False, because the body never consults the flag,
contradicting the docstring of nvmlQuery, which promises the error is
not swallowed in that case.  On success the value is returned
unchanged. -/
theorem nvmlQuery_strict_mode_not_implemented (e : PyExc) (d v : Value) :
    nvmlQueryG (Except.error e) d false = d
    ∧ nvmlQueryG (Except.error e) d true = d
    ∧ nvmlQueryG (Except.ok v) d false = v :=
  ⟨rfl, rfl, rfl⟩

/-- C6: a successful memory-info query builds the MemoryInfo record
with used = total - free, so used + free = total holds for every such
record, both at the libascend level and through Device.memory_info. -/
theorem memory_info_used_free_total (s : DState) (f t : Int)
    (hm : s.b.aclMem = .ok (f, t)) (hc : s.cache = none) :
    ascendDeviceGetMemoryInfo s.b.aclMem
        = .ok (.memInfo (.int t) (.int f) (.int (t - f)))
    ∧ (Device.memory_info s).1 = .memInfo (.int t) (.int f) (.int (t - f))
    ∧ (t - f) + f = t := by
  refine ⟨by rw [hm]; rfl, ?_, by omega⟩
  simp [Device.memory_info, hc, Device.memory_info_raw, hm,
    ascendDeviceGetMemoryInfo, nvmlQueryG]

/-- C6 witness: the invariant evaluated on a concrete device with 500
bytes total and 100 free. -/
theorem memory_info_used_free_total_witness :
    (initState bC 0).b.aclMem = .ok (100, 500)
    ∧ (initState bC 0).cache = none
    ∧ (Device.memory_info (initState bC 0)).1
        = .memInfo (.int 500) (.int 100) (.int 400)
    ∧ (400 : Int) + 100 = 500 :=
  ⟨rfl, rfl, (memory_info_used_free_total (initState bC 0) 100 500 rfl rfl).2.1,
   by omega⟩

/-- C8: _run_smi builds its subprocess.run call without any timeout
argument (so no wall-clock bound is enforced, contrary to the claim),
with check=True; it returns stdout on success and the empty string on
any failure (nonzero exit or missing tool) instead of raising. -/
theorem run_smi_no_timeout_empty_on_failure (cmd out : String) (c : Nat) :
    (runSmiCall cmd).timeout = none
    ∧ (runSmiCall cmd).check = true
    ∧ runSmi cmd (.completed 0 out) = out
    ∧ runSmi cmd (.completed (c + 1) out) = ""
    ∧ runSmi cmd .toolMissing = "" :=
  ⟨rfl, rfl, rfl, rfl, rfl⟩

/-- C8 counterexample: the claim says every _run_smi invocation
enforces a hard wall-clock timeout on the vendor CLI call; the
subprocess.run call it builds for a real npu-smi command carries no
timeout at all. -/
theorem run_smi_call_has_no_timeout :
    (runSmiCall "npu-smi info -t power -i 0").timeout = none := rfl

/-- C9 (amended): when the backend count query fails (driver not
loaded), Device.count returns the default 0 and Device.from_indices
returns the empty list, silently, instead of surfacing an error. -/
theorem discovery_absorbs_backend_unavailable (b : Backend) (e : PyExc)
    (hq : b.countQ = .error e) :
    Device.count b = 0 ∧ Device.from_indices b none = [] := by
  simp [Device.count, Device.from_indices, nvmlQueryG, hq]

/-- C9 witness: the absorbing behaviour on the concrete all-failing
backend. -/
theorem discovery_absorbs_backend_unavailable_witness :
    failB.countQ = .error .acl
    ∧ Device.count failB = 0 ∧ Device.from_indices failB none = [] :=
  ⟨rfl, discovery_absorbs_backend_unavailable failB .acl rfl⟩

/-- C9 counterexample: on a backend whose operations all raise,
discovery returns zero and the empty list, indistinguishable from a
healthy system with zero devices; no error is surfaced, contrary to
the claim. -/
theorem discovery_silent_zero :
    Device.count failB = 0
    ∧ Device.from_indices failB none = []
    ∧ Device.count failB = Device.count zeroB :=
  ⟨rfl, rfl, rfl⟩

/-- C1: inside an open oneshot scope, calling memory_info twice
returns equal values and issues at most one backend memory query in
total, and likewise for utilization_rates; the memoization cache
installed by the scope serves the second call. -/
theorem oneshot_accessor_memoization (s : DState) (c : MemCache)
    (h : s.cache = some c) :
    ((Device.memory_info ((Device.memory_info s).2)).1
        = (Device.memory_info s).1
     ∧ (Device.memory_info ((Device.memory_info s).2)).2.counts.cMem
        ≤ s.counts.cMem + 1)
    ∧ ((Device.utilization_rates ((Device.utilization_rates s).2)).1
        = (Device.utilization_rates s).1
     ∧ (Device.utilization_rates ((Device.utilization_rates s).2)).2.counts.cUtil
        ≤ s.counts.cUtil + 1) := by
  obtain ⟨cm, cu⟩ := c
  constructor
  · cases cm with
    | some v => simp [Device.memory_info, h]
    | none =>
        simp [Device.memory_info, h, Device.memory_info_raw, Device.bumpMem]
  · cases cu with
    | some v => simp [Device.utilization_rates, h]
    | none =>
        simp [Device.utilization_rates, h, Device.utilization_rates_raw,
          Device.bumpUtil]

/-- C1 witness: the memoization property evaluated inside a freshly
opened oneshot scope over the healthy concrete backend. -/
theorem oneshot_accessor_memoization_witness :
    sW.cache = some ⟨none, none⟩
    ∧ (((Device.memory_info ((Device.memory_info sW).2)).1
          = (Device.memory_info sW).1
       ∧ (Device.memory_info ((Device.memory_info sW).2)).2.counts.cMem
          ≤ sW.counts.cMem + 1)
      ∧ ((Device.utilization_rates ((Device.utilization_rates sW).2)).1
          = (Device.utilization_rates sW).1
       ∧ (Device.utilization_rates ((Device.utilization_rates sW).2)).2.counts.cUtil
          ≤ sW.counts.cUtil + 1)) :=
  ⟨rfl, oneshot_accessor_memoization sW ⟨none, none⟩ rfl⟩

set_option maxHeartbeats 3000000 in
/-- C2 (amended): on a fresh device whose memory query succeeds,
as_snapshot reads exactly the SNAPSHOT_KEYS field names in the listed
order, closes the oneshot scope on exit, and queries the backend
exactly once for name, memory info, utilization and temperature --
but twice each for power usage and power limit, because the
power_status accessor re-queries both inside the same snapshot; when
the memory query fails, as_snapshot does not complete at all: it
raises AttributeError (the .used lookup on the plain-str N/A failure
value) at the memory_used key. -/
theorem as_snapshot_field_order_and_query_counts (b : Backend) (i : Nat) :
    (∀ (f t : Int), b.aclMem = .ok (f, t) →
      (Device.as_snapshot (initState b i)).map
          (fun p => (p.1.map Prod.fst, p.2.counts, p.2.cache))
        = .ok (Device.SNAPSHOT_KEYS, ⟨1, 1, 1, 1, 2, 2⟩, none))
    ∧ (∀ (e : PyExc), b.aclMem = .error e →
      Device.as_snapshot (initState b i) = .error .attributeError) := by
  obtain ⟨mq, uq, tq, pq, lq, nq, cq⟩ := b
  constructor
  · intro f t hm
    cases hm
    rfl
  · intro e hm
    cases hm
    rfl

/-- C2 witness: the amended behaviour at the healthy concrete backend
(full snapshot, power queried twice) and at the all-failing backend
(AttributeError instead of a snapshot). -/
theorem as_snapshot_field_order_and_query_counts_witness :
    (Device.as_snapshot (initState bC 0)).map
        (fun p => (p.1.map Prod.fst, p.2.counts, p.2.cache))
      = .ok (Device.SNAPSHOT_KEYS, ⟨1, 1, 1, 1, 2, 2⟩, none)
    ∧ Device.as_snapshot (initState failB 0) = .error .attributeError :=
  ⟨(as_snapshot_field_order_and_query_counts bC 0).1 100 500 rfl,
   (as_snapshot_field_order_and_query_counts failB 0).2 .acl rfl⟩

/-- C2 counterexample: the claim says no field is queried from the
backend more than once per snapshot; on a healthy backend one
as_snapshot issues two power-usage queries (one for the power_usage
field, one more inside power_status). -/
theorem as_snapshot_queries_power_twice :
    (Device.as_snapshot (initState bC 0)).map (fun p => p.2.counts.cPower)
        = .ok 2
    ∧ ¬(2 ≤ (1 : Nat)) :=
  ⟨rfl, by decide⟩

/-- C7: evaluated on the all-failing backend, the memory-derived
accessors do NOT absorb the failure: memory_info returns libascend's
plain string N/A (nvmlQuery's default, defined in src), and the
attribute accesses .total, .used and .free on it -- and the
info.total access inside memory_percent -- raise AttributeError to
the caller, contradicting the claim; the non-attribute accessors
(temperature, power, utilization, fan) do absorb the failure into
NA. -/
theorem memory_accessors_raise_on_failure :
    Device.memory_total (initState failB 0) = .error .attributeError
    ∧ Device.memory_used (initState failB 0) = .error .attributeError
    ∧ Device.memory_free (initState failB 0) = .error .attributeError
    ∧ Device.memory_percent (initState failB 0) = .error .attributeError
    ∧ (Device.temperature (initState failB 0)).1 = .na
    ∧ (Device.power_usage (initState failB 0)).1 = .na
    ∧ (Device.power_limit (initState failB 0)).1 = .na
    ∧ (Device.npu_utilization (initState failB 0)).1 = .na
    ∧ (Device.fan_speed (initState failB 0)).1 = .na :=
  ⟨rfl, rfl, rfl, rfl, rfl, rfl, rfl, rfl, rfl⟩

/-- Helper: on a digit token within range under integer addressing,
resolveTok resolves to the parsed ordinal. -/
theorem resolveTok_digit_ok (env : DeviceGpu.GpuEnv) (useInt : Option Bool)
    (tok : String) (h : pyIsDigit tok = true)
    (hn : pyIntNat tok < env.count) (hu : useInt.getD true = true) :
    DeviceGpu.resolveTok env useInt tok = .ok (pyIntNat tok, true) := by
  unfold DeviceGpu.resolveTok
  simp [h, hn, hu]

/-- C4 counterexample: the claim says a spec with a repeated
identifier resolves to the empty list and in particular
parse_cuda_visible_devices with spec 0,1,0 returns []; the exported
parser of device.py instead keeps the duplicates. -/
theorem parse_keeps_duplicates :
    parse_cuda_visible_devices (some "0,1,0") none none 0 = [0, 1, 0]
    ∧ ([0, 1, 0] : List Nat) ≠ [] :=
  ⟨rfl, by decide⟩

/-- C4 (amended): duplicate rejection only lives in the legacy GPU
resolver _parse_cuda_visible_devices of device_gpu.py (not imported
anywhere): there, on any topology with at least two devices, the spec
0,1,0 yields [] because the repeated identifier 0 is detected; the
exported parse_cuda_visible_devices of device.py keeps duplicates and
returns [0, 1, 0]. -/
theorem duplicate_identifier_resolution (env : DeviceGpu.GpuEnv)
    (h2 : 2 ≤ env.count) (hd : env.discoveryOk = true) :
    DeviceGpu.parse_cuda_visible_devices env (some "0,1,0") = []
    ∧ parse_cuda_visible_devices (some "0,1,0") none none 0 = [0, 1, 0] := by
  refine ⟨?_, rfl⟩
  have e0 : DeviceGpu.resolveTok env none "0" = .ok (0, true) :=
    resolveTok_digit_ok env none "0" rfl (by
      rw [show pyIntNat "0" = 0 from rfl]; omega) rfl
  have e1 : DeviceGpu.resolveTok env (some true) "1" = .ok (1, true) :=
    resolveTok_digit_ok env (some true) "1" rfl (by
      rw [show pyIntNat "1" = 1 from rfl]; omega) rfl
  unfold DeviceGpu.parse_cuda_visible_devices
  rw [hd]
  show DeviceGpu.parseLoop env none [] [] ["0", "1", "0"] = []
  simp [DeviceGpu.parseLoop, e0, e1]

/-- C4 witness: the amended behaviour on the concrete two-device
topology. -/
theorem duplicate_identifier_resolution_witness :
    2 ≤ envAB.count ∧ envAB.discoveryOk = true
    ∧ DeviceGpu.parse_cuda_visible_devices envAB (some "0,1,0") = []
    ∧ parse_cuda_visible_devices (some "0,1,0") none none 0 = [0, 1, 0] := by
  refine ⟨by decide, rfl, ?_⟩
  exact duplicate_identifier_resolution envAB (by decide) rfl

/-- C5 counterexample: the claim says resolution stops at the first
token of the other addressing scheme and drops it and everything after
it, so the spec 0,uuid,1 would resolve to the first device only; the
exported parser of device.py instead skips the UUID token and keeps
scanning, returning both ordinals. -/
theorem parse_does_not_stop_at_mixed_scheme :
    parse_cuda_visible_devices (some ("0," ++ uuidB ++ ",1")) none none 0
        = [0, 1]
    ∧ ([0, 1] : List Nat) ≠ [0] :=
  ⟨rfl, by decide⟩

/-- C5 (amended): stop-at-mismatch only lives in the legacy GPU
resolver of device_gpu.py: there, on any topology with at least one
device, the ordinal-then-UUID spec 0,uuid resolves to exactly the
first device, the UUID token raising ValueError and breaking the scan;
the exported parse_cuda_visible_devices of device.py instead skips
non-digit tokens and continues, so 0,uuid,1 yields [0, 1]. -/
theorem mixed_scheme_resolution (env : DeviceGpu.GpuEnv)
    (h1 : 1 ≤ env.count) (hd : env.discoveryOk = true) :
    DeviceGpu.parse_cuda_visible_devices env (some ("0," ++ uuidB)) = [0]
    ∧ parse_cuda_visible_devices (some ("0," ++ uuidB ++ ",1")) none none 0
        = [0, 1] := by
  refine ⟨?_, rfl⟩
  have e0 : DeviceGpu.resolveTok env none "0" = .ok (0, true) :=
    resolveTok_digit_ok env none "0" rfl (by
      rw [show pyIntNat "0" = 0 from rfl]; omega) rfl
  have eB : DeviceGpu.resolveTok env (some true)
      "NPU-66666666-7777-8888-9999-aaaaaaaaaaaa" = .error () := by
    unfold DeviceGpu.resolveTok
    rw [show pyIsDigit "NPU-66666666-7777-8888-9999-aaaaaaaaaaaa"
          = false from rfl]
    rw [show DeviceGpu.uuidMatch "NPU-66666666-7777-8888-9999-aaaaaaaaaaaa"
          = true from rfl]
    simp
  unfold DeviceGpu.parse_cuda_visible_devices
  rw [hd]
  show DeviceGpu.parseLoop env none [] [] ["0", uuidB] = [0]
  simp [DeviceGpu.parseLoop, e0, eB, uuidB]

/-- C5 witness: the amended behaviour on the concrete two-device
topology carrying uuidA and uuidB. -/
theorem mixed_scheme_resolution_witness :
    1 ≤ envAB.count ∧ envAB.discoveryOk = true
    ∧ DeviceGpu.parse_cuda_visible_devices envAB (some ("0," ++ uuidB)) = [0]
    ∧ parse_cuda_visible_devices (some ("0," ++ uuidB ++ ",1")) none none 0
        = [0, 1] := by
  refine ⟨by decide, rfl, ?_⟩
  exact mixed_scheme_resolution envAB (by decide) rfl

/-- C10 counterexample: the claim says as_snapshot's fixed field-list
read never fails with an attribute-lookup error; on a backend whose
memory query fails, as_snapshot does fail, and precisely with an
AttributeError -- raised not by getattr but by the .used access on
the plain-str N/A value that memory_info returned. -/
theorem as_snapshot_raises_attribute_error :
    Device.as_snapshot (initState failB 0) = .error .attributeError :=
  rfl

set_option maxHeartbeats 3000000 in
/-- C10 (amended): every name in SNAPSHOT_KEYS is present in the
Device attribute table after the module-level stubbing loop, so the
getattr lookup in as_snapshot itself never fails and callers need no
capability check for accessor existence; a key missing from the class
body is bound to the NA stub, which always returns NA.  When the
memory query succeeds, as_snapshot completes; but when it fails, an
AttributeError still escapes as_snapshot, raised inside the
memory-derived accessors by the attribute access on the plain-str N/A
failure value. -/
theorem snapshot_accessors_always_exist :
    (Device.SNAPSHOT_KEYS.all (fun k => (Device.deviceAttr k).isSome)) = true
    ∧ (∀ (k : String), k ∈ Device.SNAPSHOT_KEYS →
        Device.baseAttr k = none →
        Device.deviceAttr k = some (Device.liftA Device.naMethodA))
    ∧ (∀ (s : DState), (Device.naMethodA s).1 = Value.na)
    ∧ (∀ (b : Backend) (i : Nat) (f t : Int), b.aclMem = .ok (f, t) →
        (Device.as_snapshot (initState b i)).isOk = true)
    ∧ (∀ (b : Backend) (i : Nat) (e : PyExc), b.aclMem = .error e →
        Device.as_snapshot (initState b i) = .error .attributeError) := by
  refine ⟨by decide, ?_, fun s => rfl, ?_, ?_⟩
  · intro k hk hb
    unfold Device.deviceAttr
    rw [hb]
    simp [hk]
  · intro b i f t hm
    obtain ⟨mq, uq, tq, pq, lq, nq, cq⟩ := b
    cases hm
    rfl
  · intro b i e hm
    obtain ⟨mq, uq, tq, pq, lq, nq, cq⟩ := b
    cases hm
    rfl

/-- C10 witness: clock_infos is a snapshot key with no class-body
accessor and the stubbing loop binds it to the NA stub; as_snapshot
completes on the healthy backend and raises AttributeError on the
all-failing one. -/
theorem snapshot_accessors_always_exist_witness :
    ("clock_infos" ∈ Device.SNAPSHOT_KEYS)
    ∧ Device.baseAttr "clock_infos" = none
    ∧ Device.deviceAttr "clock_infos" = some (Device.liftA Device.naMethodA)
    ∧ (Device.as_snapshot (initState bC 0)).isOk = true
    ∧ Device.as_snapshot (initState failB 0) = .error .attributeError :=
  ⟨by decide, rfl,
   snapshot_accessors_always_exist.2.1 "clock_infos" (by decide) rfl,
   snapshot_accessors_always_exist.2.2.2.1 bC 0 100 500 rfl,
   snapshot_accessors_always_exist.2.2.2.2 failB 0 .acl rfl⟩
